import Mathlib

/-!
Verification of the order-summary path of the delivery-preference app
(`backend/internal/handler/summary.go`): the order-description builder,
the two provider adapters (`callOpenAI`, `callGemini`) with their network
layer abstracted to an explicit "world" oracle, and the orchestrator
`generateOrderSummary`.
-/

namespace DeliveryApp

/-! ### Go string helpers -/

/-- Model of Go `unicode.IsSpace` on the characters relevant here
(ASCII whitespace plus NEL and NBSP). -/
def goIsSpace (c : Char) : Bool :=
  c = ' ' || c = '\t' || c = '\n' || c.toNat = 11 || c.toNat = 12 || c = '\r' ||
    c.toNat = 133 || c.toNat = 160

/-- Drop the matching characters from the end of a list. -/
def dropEnd (p : Char → Bool) (l : List Char) : List Char :=
  (l.reverse.dropWhile p).reverse

/-- Model of Go `strings.TrimSpace`: remove leading and trailing whitespace. -/
def trimSpace (s : String) : String :=
  String.mk (dropEnd goIsSpace (s.data.dropWhile goIsSpace))

theorem dropWhile_dropWhile (p : Char → Bool) (l : List Char) :
    (l.dropWhile p).dropWhile p = l.dropWhile p := by
  induction l with
  | nil => rfl
  | cons x xs ih =>
    by_cases hx : p x
    · simp [List.dropWhile_cons, hx, ih]
    · simp [List.dropWhile_cons, hx]

theorem dropWhile_eq_self_append (p : Char → Bool) (a b : List Char)
    (h : List.dropWhile p (a ++ b) = a ++ b) : List.dropWhile p a = a := by
  cases a with
  | nil => rfl
  | cons x xs =>
    have hx : p x = false := by
      by_cases hx' : p x
      · exfalso
        have hlen : (List.dropWhile p (xs ++ b)).length ≤ (xs ++ b).length :=
          (List.dropWhile_suffix p).sublist.length_le
        rw [List.cons_append, List.dropWhile_cons, if_pos hx'] at h
        rw [h] at hlen
        simp at hlen
      · simpa using hx'
    simp [List.dropWhile_cons, hx]

theorem dropWhile_dropEnd (p : Char → Bool) (m : List Char)
    (h : List.dropWhile p m = m) : List.dropWhile p (dropEnd p m) = dropEnd p m := by
  have h0 : m.reverse.takeWhile p ++ m.reverse.dropWhile p = m.reverse :=
    List.takeWhile_append_dropWhile p m.reverse
  have h1 : (m.reverse.dropWhile p).reverse ++ (m.reverse.takeWhile p).reverse = m := by
    have h2 := congrArg List.reverse h0
    rwa [List.reverse_append, List.reverse_reverse] at h2
  have hab : List.dropWhile p
      ((m.reverse.dropWhile p).reverse ++ (m.reverse.takeWhile p).reverse) =
      (m.reverse.dropWhile p).reverse ++ (m.reverse.takeWhile p).reverse := by
    rw [h1]; exact h
  exact dropWhile_eq_self_append p _ _ hab

theorem trimSpace_idem (s : String) : trimSpace (trimSpace s) = trimSpace s := by
  unfold trimSpace
  set p := goIsSpace with hp
  set u := s.data.dropWhile p with hu
  have hudrop : u.dropWhile p = u := by rw [hu]; exact dropWhile_dropWhile p s.data
  have hmdata : (String.mk (dropEnd p u)).data = dropEnd p u := rfl
  rw [hmdata]
  have h1 : List.dropWhile p (dropEnd p u) = dropEnd p u := dropWhile_dropEnd p u hudrop
  rw [h1]
  have h2 : dropEnd p (dropEnd p u) = dropEnd p u := by
    unfold dropEnd
    rw [List.reverse_reverse]
    rw [dropWhile_dropWhile]
  rw [h2]

theorem trimSpace_empty : trimSpace "" = "" := rfl

/-! ### Data model (Go types used by `summary.go`) -/

/-- Shallow model of Go `time.Time`: the value is identified with its
RFC 3339 rendering, which is all `summary.go` ever extracts from it
(`t.Format(time.RFC3339)`). -/
structure GoTime where
  rfc3339 : String
deriving DecidableEq

/-- Model of `t.Format(time.RFC3339)`. -/
def formatRFC3339 (t : GoTime) : String := t.rfc3339

/-- Model of Go `sql.NullString` (fields `String`, `Valid`). -/
structure NullString where
  valid : Bool
  str : String
deriving DecidableEq

/-- Model of Go `sql.NullTime` (fields `Time`, `Valid`). -/
structure NullTime where
  valid : Bool
  time : GoTime
deriving DecidableEq

/-- Model of `strings.ReplaceAll(preference, "_", " ")` (single-character
pattern, so it is a character map). -/
def replaceUnderscores (s : String) : String :=
  String.mk (s.data.map fun c => if c = '_' then ' ' else c)

/-! ### orderDescription (summary.go lines 75-96) -/

/-- Embedding of `orderDescription`: builds the order-fact string with
order number, preference, address, pickup time, creation date. -/
def orderDescription (id : Int) (preference : String) (address : NullString)
    (pickupTime : NullTime) (createdAt : GoTime) : String :=
  "Order number: " ++ toString id ++
    ". Preference: " ++ replaceUnderscores preference ++
    (if address.valid = true ∧ address.str ≠ "" then ". Address: " ++ address.str
     else ". Address: (none)") ++
    (if pickupTime.valid = true then ". Pickup time: " ++ formatRFC3339 pickupTime.time
     else ". Pickup time: (none)") ++
    ". Creation date: " ++ formatRFC3339 createdAt

/-! ### Provider adapters

The network layer (everything observed through `client.Do` and
`json.Decode`) is abstracted into an explicit "world" value: the outcome
the wire would have produced. Each adapter returns its Go result,
`(string, error)` modelled as `Except String String`, paired with a `Bool`
recording whether the network was contacted. -/

deriving instance DecidableEq for Except

/-- Outcome of the HTTP exchange in `callOpenAI` past the key check:
either `client.Do` fails, or a response arrives with a status, a status
line, the message decoded from the error envelope (`""` when absent or
undecodable), and the decode result of the success body — the list of
choice message contents. -/
inductive OpenAIWorld where
  | transportError (msg : String)
  | response (status : Nat) (statusText : String) (errMessage : String)
      (outDecode : Except String (List String))
deriving DecidableEq

/-- Embedding of `callOpenAI` (summary.go lines 139-203): trims the key,
rejects a blank key before any network use, classifies non-200 statuses
as errors, and on 200 returns the content of the first choice, trimmed
(empty choice list ⇒ empty result, no error). -/
def callOpenAI (prompt apiKey : String) (world : OpenAIWorld) :
    Except String String × Bool :=
  if trimSpace apiKey = "" then (.error "openai: empty API key", false)
  else
    match world with
    | .transportError msg => (.error msg, true)
    | .response status statusText errMessage outDecode =>
      if status ≠ 200 then
        (.error ("openai " ++ toString status ++ ": " ++
          (if errMessage = "" then statusText else errMessage)), true)
      else
        match outDecode with
        | .error m => (.error m, true)
        | .ok [] => (.ok "", true)
        | .ok (c :: _) => (.ok (trimSpace c), true)

/-! Gemini wire types (summary.go lines 206-252), as in the source. -/

/-- Wire type GeminiPart: holds one text fragment. -/
structure GeminiPart where
  text : String
deriving DecidableEq

/-- Wire type GeminiContent: holds the list of parts. -/
structure GeminiContent where
  parts : List GeminiPart
deriving DecidableEq

/-- Wire type GeminiCandidate: holds one generated reply. -/
structure GeminiCandidate where
  content : GeminiContent
deriving DecidableEq

/-- Wire type GeminiAPIError: the structured error envelope. -/
structure GeminiAPIError where
  code : Nat
  message : String
  status : String
deriving DecidableEq

/-- Wire type GeminiGenerateContentResponse: the decoded response body. -/
structure GeminiGenerateContentResponse where
  candidates : List GeminiCandidate
  error : Option GeminiAPIError
deriving DecidableEq

/-- Outcome of the HTTP exchange in `callGemini` past the key check:
either `client.Do` fails, or a response arrives with a status, a status
line, and the JSON decode result of the body (the source decodes the body
before inspecting the status). -/
inductive GeminiWorld where
  | transportError (msg : String)
  | response (status : Nat) (statusText : String)
      (decoded : Except String GeminiGenerateContentResponse)
deriving DecidableEq

/-- Embedding of `callGemini` (summary.go lines 254-308): trims the key,
rejects a blank key before any network use, decodes the body, classifies
non-200 statuses as errors (preferring the envelope message), and on 200
joins the part texts of the first candidate and trims them (empty candidate or
part list ⇒ empty result, no error). -/
def callGemini (prompt apiKey : String) (world : GeminiWorld) :
    Except String String × Bool :=
  if trimSpace apiKey = "" then (.error "gemini: missing GEMINI_API_KEY", false)
  else
    match world with
    | .transportError msg => (.error msg, true)
    | .response status statusText decoded =>
      match decoded with
      | .error m => (.error m, true)
      | .ok out =>
        if status ≠ 200 then
          (.error ("gemini " ++ toString status ++ ": " ++
            (match out.error with
             | some e => if e.message ≠ "" then e.message else statusText
             | none => statusText)), true)
        else
          match out.candidates with
          | [] => (.ok "", true)
          | cand :: _ =>
            match cand.content.parts with
            | [] => (.ok "", true)
            | p0 :: ps =>
              (.ok (trimSpace ((p0 :: ps).foldl
                (fun acc p => if p.text = "" then acc else acc ++ p.text) "")), true)

/-! ### Orchestrator (summary.go lines 98-136) -/

/-- The constant fallbackSummaryText: shown when no AI worked. -/
def fallbackSummaryText : String := "Unable to generate Summary"

/-- The fixed generation prompt built around the order description. -/
def summaryPrompt (orderDesc : String) : String :=
  "Create the order summary for the customer in one or two complete sentences. Include order number, preference, address, pickup time. Use the following order details: " ++ orderDesc

/-- The two provider adapters. -/
inductive Provider where
  | openai
  | gemini
deriving DecidableEq

/-- Embedding of `generateOrderSummary`, instrumented with the list of
adapters actually invoked. `openaiKey` and `geminiKey` are the values of
`os.Getenv("OPENAI_API_KEY")` and `os.Getenv("GEMINI_API_KEY")` read at
request time; the worlds are the network outcomes the respective call
would observe. The result mirrors the Go control flow exactly: OpenAI is
tried when its key is non-empty, else Gemini when its key is non-empty,
else neither; an adapter error or empty adapter result yields the fixed
fallback pair. -/
def generateOrderSummaryT (orderDesc openaiKey geminiKey : String)
    (openaiWorld : OpenAIWorld) (geminiWorld : GeminiWorld) :
    (String × String) × List Provider :=
  if openaiKey ≠ "" then
    match (callOpenAI (summaryPrompt orderDesc) openaiKey openaiWorld).1 with
    | .error _ => ((fallbackSummaryText, "fallback"), [.openai])
    | .ok s =>
      if s = "" then ((fallbackSummaryText, "fallback"), [.openai])
      else ((s, "ai"), [.openai])
  else if geminiKey ≠ "" then
    match (callGemini (summaryPrompt orderDesc) geminiKey geminiWorld).1 with
    | .error _ => ((fallbackSummaryText, "fallback"), [.gemini])
    | .ok s =>
      if s = "" then ((fallbackSummaryText, "fallback"), [.gemini])
      else ((s, "ai"), [.gemini])
  else ((fallbackSummaryText, "fallback"), [])

/-- Embedding of `generateOrderSummary`: the `(summary, source)` pair. -/
def generateOrderSummary (orderDesc openaiKey geminiKey : String)
    (openaiWorld : OpenAIWorld) (geminiWorld : GeminiWorld) : String × String :=
  (generateOrderSummaryT orderDesc openaiKey geminiKey openaiWorld geminiWorld).1

/-! ### Response encoding (summary.go lines 27-31, 69-72) -/

/-- The struct OrderSummaryResponse: the JSON response struct. -/
structure OrderSummaryResponse where
  summary : String
  source : String
deriving DecidableEq

/-- Field-level model of `encoding/json` on `OrderSummaryResponse`:
`Summary` is always emitted; `Source` carries `omitempty`, so it is
emitted exactly when non-empty. -/
def encodeOrderSummaryResponseFields (r : OrderSummaryResponse) :
    List (String × String) :=
  [("summary", r.summary)] ++ (if r.source = "" then [] else [("source", r.source)])

/-! ### Spec-side formulations used by refinement claims -/

/-- Modelled from the words of the spec (claim C4): the description is five
segments in fixed order — number, preference, address, pickup time,
creation date — each separated by ". ". -/
def orderDescriptionSegments (id : Int) (preference : String)
    (address : NullString) (pickupTime : NullTime) (createdAt : GoTime) : String :=
  ("Order number: " ++ toString id) ++ ". " ++
    ("Preference: " ++ replaceUnderscores preference) ++ ". " ++
    ("Address: " ++
      (if address.valid = true ∧ address.str ≠ "" then address.str else "(none)")) ++ ". " ++
    ("Pickup time: " ++
      (if pickupTime.valid = true then formatRFC3339 pickupTime.time else "(none)")) ++ ". " ++
    ("Creation date: " ++ formatRFC3339 createdAt)

/-- Modelled from the words of the spec (claim C6): the concatenation, in
order, of the texts of all the parts. -/
def concatParts (parts : List GeminiPart) : String :=
  parts.foldl (fun acc p => acc ++ p.text) ""

/-- The description text before the address segment. -/
def descBeforeAddress (id : Int) (preference : String) : String :=
  "Order number: " ++ toString id ++ ". Preference: " ++ replaceUnderscores preference

/-- The description text after the address segment. -/
def descAfterAddress (pickupTime : NullTime) (createdAt : GoTime) : String :=
  (if pickupTime.valid = true then ". Pickup time: " ++ formatRFC3339 pickupTime.time
   else ". Pickup time: (none)") ++
    ". Creation date: " ++ formatRFC3339 createdAt

/-! ### Helper lemmas -/

/-- Every successful `callOpenAI` result is already whitespace-trimmed. -/
theorem callOpenAI_ok_trim (prompt apiKey : String) (w : OpenAIWorld) (s : String)
    (h : (callOpenAI prompt apiKey w).1 = .ok s) : trimSpace s = s := by
  unfold callOpenAI at h
  split at h
  · simp at h
  · split at h
    · simp at h
    · split at h
      · simp at h
      · split at h
        · simp at h
        · simp at h; rw [← h]; exact trimSpace_empty
        · simp at h; rw [← h]; exact trimSpace_idem _

/-- Every successful `callGemini` result is already whitespace-trimmed. -/
theorem callGemini_ok_trim (prompt apiKey : String) (v : GeminiWorld) (s : String)
    (h : (callGemini prompt apiKey v).1 = .ok s) : trimSpace s = s := by
  unfold callGemini at h
  split at h
  · simp at h
  · split at h
    · simp at h
    · split at h
      · simp at h
      · split at h
        · simp at h
        · split at h
          · simp at h; rw [← h]; exact trimSpace_empty
          · split at h
            · simp at h; rw [← h]; exact trimSpace_empty
            · simp at h; rw [← h]; exact trimSpace_idem _

/-- The trace of attempted providers depends only on the two key values. -/
theorem generateOrderSummaryT_trace (d oKey gKey : String)
    (w : OpenAIWorld) (v : GeminiWorld) :
    (generateOrderSummaryT d oKey gKey w v).2 =
      if oKey ≠ "" then [Provider.openai]
      else if gKey ≠ "" then [Provider.gemini] else [] := by
  unfold generateOrderSummaryT
  by_cases h1 : oKey ≠ ""
  · rw [if_pos h1, if_pos h1]
    cases (callOpenAI (summaryPrompt d) oKey w).1 with
    | error e => rfl
    | ok s => by_cases hs : s = "" <;> simp [hs]
  · rw [if_neg h1, if_neg h1]
    by_cases h2 : gKey ≠ ""
    · rw [if_pos h2, if_pos h2]
      cases (callGemini (summaryPrompt d) gKey v).1 with
      | error e => rfl
      | ok s => by_cases hs : s = "" <;> simp [hs]
    · rw [if_neg h2, if_neg h2]

/-- Case analysis of `generateOrderSummary`: the result is either the fixed
fallback pair, or a non-empty trimmed adapter text tagged `"ai"`. -/
theorem generateOrderSummary_cases (d oKey gKey : String)
    (w : OpenAIWorld) (v : GeminiWorld) :
    generateOrderSummary d oKey gKey w v = (fallbackSummaryText, "fallback") ∨
    ∃ s, generateOrderSummary d oKey gKey w v = (s, "ai") ∧ s ≠ "" ∧
      trimSpace s = s := by
  unfold generateOrderSummary generateOrderSummaryT
  by_cases h1 : oKey ≠ ""
  · rw [if_pos h1]
    cases hc : (callOpenAI (summaryPrompt d) oKey w).1 with
    | error e => left; rfl
    | ok s =>
      by_cases hs : s = ""
      · left; simp [hs]
      · right
        exact ⟨s, by simp [hs], hs, callOpenAI_ok_trim _ _ _ _ hc⟩
  · rw [if_neg h1]
    by_cases h2 : gKey ≠ ""
    · rw [if_pos h2]
      cases hc : (callGemini (summaryPrompt d) gKey v).1 with
      | error e => left; rfl
      | ok s =>
        by_cases hs : s = ""
        · left; simp [hs]
        · right
          exact ⟨s, by simp [hs], hs, callGemini_ok_trim _ _ _ _ hc⟩
    · rw [if_neg h2]
      left; rfl

/-- Skipping empty parts while concatenating changes nothing. -/
theorem foldl_skip_empty (parts : List GeminiPart) (acc : String) :
    parts.foldl (fun a p => if p.text = "" then a else a ++ p.text) acc =
      parts.foldl (fun a p => a ++ p.text) acc := by
  induction parts generalizing acc with
  | nil => rfl
  | cons p ps ih =>
    simp only [List.foldl_cons]
    by_cases hp : p.text = ""
    · rw [if_pos hp, hp, String.append_empty]
      exact ih acc
    · rw [if_neg hp]
      exact ih (acc ++ p.text)

/-! ### Claim theorems -/

/-- C4: `orderDescription` is deterministic — equal inputs give the
identical string — and is exactly the fixed concatenation of the five
labelled segments in order (number, preference with underscores replaced
by spaces, address, pickup time, creation date), separated by ". ", with
RFC 3339 timestamps and "(none)" placeholders for absent optional
fields. -/
theorem orderDescription_deterministic_segments (id : Int) (preference : String)
    (address : NullString) (pickupTime : NullTime) (createdAt : GoTime) :
    orderDescription id preference address pickupTime createdAt =
      orderDescription id preference address pickupTime createdAt ∧
    orderDescription id preference address pickupTime createdAt =
      orderDescriptionSegments id preference address pickupTime createdAt := by
  refine ⟨rfl, ?_⟩
  unfold orderDescription orderDescriptionSegments
  split_ifs <;> (simp only [String.append_assoc]; rfl)

/-- C5 counterexample: a whitespace-only address (present, non-empty,
blank) is rendered literally, not as the "(none)" placeholder the claim
requires for whitespace-only addresses. -/
theorem orderDescription_blankAddress_counterexample :
    trimSpace " " = "" ∧
    orderDescription 7 "no_pref" ⟨true, " "⟩ ⟨false, ⟨""⟩⟩ ⟨"2024-01-02T03:04:05Z"⟩ =
      "Order number: 7. Preference: no pref. Address:  . Pickup time: (none). Creation date: 2024-01-02T03:04:05Z" ∧
    orderDescription 7 "no_pref" ⟨true, " "⟩ ⟨false, ⟨""⟩⟩ ⟨"2024-01-02T03:04:05Z"⟩ ≠
      "Order number: 7. Preference: no pref. Address: (none). Pickup time: (none). Creation date: 2024-01-02T03:04:05Z" := by
  exact ⟨by decide, by decide, by decide⟩

/-- C5 (amended): if the address is present and non-EMPTY, the address
segment contains its literal value (even when whitespace-only); if absent
or empty, the fixed "(none)" placeholder is rendered; the address field
is never omitted. -/
theorem orderDescription_address_amended (id : Int) (preference : String)
    (address : NullString) (pickupTime : NullTime) (createdAt : GoTime) :
    (address.valid = true ∧ address.str ≠ "" →
      orderDescription id preference address pickupTime createdAt =
        descBeforeAddress id preference ++ (". Address: " ++ address.str) ++
          descAfterAddress pickupTime createdAt) ∧
    (¬(address.valid = true ∧ address.str ≠ "") →
      orderDescription id preference address pickupTime createdAt =
        descBeforeAddress id preference ++ ". Address: (none)" ++
          descAfterAddress pickupTime createdAt) := by
  constructor
  · intro h
    unfold orderDescription descBeforeAddress descAfterAddress
    rw [if_pos h]
    simp only [String.append_assoc]
  · intro h
    unfold orderDescription descBeforeAddress descAfterAddress
    rw [if_neg h]
    simp only [String.append_assoc]

/-- C5 witness: a present, non-empty address is rendered literally. -/
theorem orderDescription_address_amended_witness :
    orderDescription 1 "a" ⟨true, "X"⟩ ⟨false, ⟨"t"⟩⟩ ⟨"2025-01-01T00:00:00Z"⟩ =
      descBeforeAddress 1 "a" ++ (". Address: " ++ "X") ++
        descAfterAddress ⟨false, ⟨"t"⟩⟩ ⟨"2025-01-01T00:00:00Z"⟩ :=
  (orderDescription_address_amended 1 "a" ⟨true, "X"⟩ ⟨false, ⟨"t"⟩⟩
    ⟨"2025-01-01T00:00:00Z"⟩).1 ⟨rfl, by decide⟩

/-- C6: on an HTTP 200 well-formed Gemini response, `callGemini` returns
the whitespace-trimmed concatenation, in order, of all the first
candidate, part by part in order; an empty candidate list or an empty parts list
yields the empty string with no error. -/
theorem callGemini_success_parse (prompt apiKey statusText : String)
    (out : GeminiGenerateContentResponse) (hkey : trimSpace apiKey ≠ "") :
    (callGemini prompt apiKey (.response 200 statusText (.ok out))).1 =
      .ok (match out.candidates with
        | [] => ""
        | cand :: _ =>
          if cand.content.parts = [] then ""
          else trimSpace (concatParts cand.content.parts)) := by
  rcases hcand : out.candidates with _ | ⟨cand, rest⟩
  · simp [callGemini, hkey, hcand]
  · rcases hparts : cand.content.parts with _ | ⟨p0, ps⟩
    · simp [callGemini, hkey, hcand, hparts]
    · simp [callGemini, hkey, hcand, hparts]
      rw [foldl_skip_empty]
      have hinit : (if p0.text = "" then "" else p0.text) = "" ++ p0.text := by
        by_cases h0 : p0.text = ""
        · rw [if_pos h0, h0]; rfl
        · rw [if_neg h0]; rfl
      rw [hinit]
      rfl

/-- C6 witness: the two parts "Hello, " and "your order is ready." join
to "Hello, your order is ready.". -/
theorem callGemini_success_parse_witness :
    (callGemini "p" "k" (.response 200 "200 OK"
      (.ok ⟨[⟨⟨[⟨"Hello, "⟩, ⟨"your order is ready."⟩]⟩⟩], none⟩))).1
      = .ok "Hello, your order is ready." := by
  have h := callGemini_success_parse "p" "k" "200 OK"
    ⟨[⟨⟨[⟨"Hello, "⟩, ⟨"your order is ready."⟩]⟩⟩], none⟩ (by decide)
  rw [h]
  rfl

/-- C7: both adapters use only the trimmed credential, and a credential
that is blank after trimming yields the fixed error immediately with the
network flag false (no network call), for every possible network
world. -/
theorem adapter_blankKey_immediate_error (prompt apiKey : String)
    (w : OpenAIWorld) (v : GeminiWorld) :
    callOpenAI prompt apiKey w = callOpenAI prompt (trimSpace apiKey) w ∧
    callGemini prompt apiKey v = callGemini prompt (trimSpace apiKey) v ∧
    (trimSpace apiKey = "" →
      callOpenAI prompt apiKey w = (.error "openai: empty API key", false) ∧
      callGemini prompt apiKey v = (.error "gemini: missing GEMINI_API_KEY", false)) := by
  refine ⟨?_, ?_, ?_⟩
  · unfold callOpenAI; rw [trimSpace_idem]
  · unfold callGemini; rw [trimSpace_idem]
  · intro h
    constructor
    · unfold callOpenAI; rw [if_pos h]
    · unfold callGemini; rw [if_pos h]

/-- C7 witness: a whitespace-only credential errors with no network
call in both adapters. -/
theorem adapter_blankKey_immediate_error_witness :
    callOpenAI "p" "  " (.transportError "x")
      = (.error "openai: empty API key", false) ∧
    callGemini "p" "  " (.transportError "y")
      = (.error "gemini: missing GEMINI_API_KEY", false) :=
  (adapter_blankKey_immediate_error "p" "  "
    (.transportError "x") (.transportError "y")).2.2 (by decide)

/-- C1: for every order description string and every outcome of the
provider adapters (no credential, adapter error, blank adapter result,
non-blank adapter result), `generateOrderSummary` returns a pair whose
summary is non-empty and whose source is exactly "ai" or "fallback";
being a total function, it never raises an AI-related error. -/
theorem generateOrderSummary_total_availability (d oKey gKey : String)
    (w : OpenAIWorld) (v : GeminiWorld) :
    (generateOrderSummary d oKey gKey w v).1 ≠ "" ∧
    ((generateOrderSummary d oKey gKey w v).2 = "ai" ∨
      (generateOrderSummary d oKey gKey w v).2 = "fallback") := by
  rcases generateOrderSummary_cases d oKey gKey w v with h | ⟨s, h, hs, _⟩
  · rw [h]; exact ⟨by decide, Or.inr rfl⟩
  · rw [h]; exact ⟨hs, Or.inl rfl⟩

/-- C2 counterexample: a whitespace-only OpenAI credential is blank, so
per the claim Gemini (whose credential is configured) should be attempted
exclusively; the code instead attempts OpenAI and never invokes Gemini. -/
theorem providerPrecedence_counterexample :
    trimSpace " " = "" ∧
    (generateOrderSummaryT "order" " " "gkey"
      (.transportError "net down") (.transportError "net down")).2
      = [Provider.openai] ∧
    (generateOrderSummaryT "order" " " "gkey"
      (.transportError "net down") (.transportError "net down")).2
      ≠ [Provider.gemini] := by
  exact ⟨by decide, by decide, by decide⟩

/-- C2 (amended): provider selection is a strict fixed precedence keyed on
non-EMPTINESS of the configuration values: a non-empty OpenAI credential
(even whitespace-only) routes to OpenAI exclusively; else a non-empty
Gemini credential routes to Gemini exclusively; else no adapter is
invoked; at most one adapter is ever attempted. -/
theorem providerPrecedence_nonempty (d oKey gKey : String)
    (w : OpenAIWorld) (v : GeminiWorld) :
    (oKey ≠ "" → (generateOrderSummaryT d oKey gKey w v).2 = [Provider.openai]) ∧
    (oKey = "" → gKey ≠ "" →
      (generateOrderSummaryT d oKey gKey w v).2 = [Provider.gemini]) ∧
    (oKey = "" → gKey = "" → (generateOrderSummaryT d oKey gKey w v).2 = []) ∧
    (generateOrderSummaryT d oKey gKey w v).2.length ≤ 1 := by
  have ht := generateOrderSummaryT_trace d oKey gKey w v
  refine ⟨?_, ?_, ?_, ?_⟩
  · intro h1; rw [ht, if_pos h1]
  · intro h1 h2; rw [ht, if_neg (not_not_intro h1), if_pos h2]
  · intro h1 h2; rw [ht, if_neg (not_not_intro h1), if_neg (not_not_intro h2)]
  · rw [ht]; split_ifs <;> simp

/-- C2 witness: with both credentials non-empty, only OpenAI is tried. -/
theorem providerPrecedence_nonempty_witness :
    (generateOrderSummaryT "order" "okey" "gkey"
      (.transportError "boom") (.transportError "boom")).2 = [Provider.openai] :=
  (providerPrecedence_nonempty "order" "okey" "gkey"
    (.transportError "boom") (.transportError "boom")).1 (by decide)

/-- C3: per attempted call, an adapter error or a blank adapter result
yields the fixed fallback pair; a non-blank adapter result is returned
verbatim with source "ai"; with no credential configured the fallback
pair is returned and no adapter is invoked. -/
theorem attemptedCall_outcome (d oKey gKey : String)
    (w : OpenAIWorld) (v : GeminiWorld) :
    (oKey ≠ "" →
      (∀ e, (callOpenAI (summaryPrompt d) oKey w).1 = .error e →
        generateOrderSummary d oKey gKey w v = (fallbackSummaryText, "fallback")) ∧
      (∀ s, (callOpenAI (summaryPrompt d) oKey w).1 = .ok s → trimSpace s = "" →
        generateOrderSummary d oKey gKey w v = (fallbackSummaryText, "fallback")) ∧
      (∀ s, (callOpenAI (summaryPrompt d) oKey w).1 = .ok s → trimSpace s ≠ "" →
        generateOrderSummary d oKey gKey w v = (s, "ai"))) ∧
    (oKey = "" → gKey ≠ "" →
      (∀ e, (callGemini (summaryPrompt d) gKey v).1 = .error e →
        generateOrderSummary d oKey gKey w v = (fallbackSummaryText, "fallback")) ∧
      (∀ s, (callGemini (summaryPrompt d) gKey v).1 = .ok s → trimSpace s = "" →
        generateOrderSummary d oKey gKey w v = (fallbackSummaryText, "fallback")) ∧
      (∀ s, (callGemini (summaryPrompt d) gKey v).1 = .ok s → trimSpace s ≠ "" →
        generateOrderSummary d oKey gKey w v = (s, "ai"))) ∧
    (oKey = "" → gKey = "" →
      generateOrderSummary d oKey gKey w v = (fallbackSummaryText, "fallback") ∧
      (generateOrderSummaryT d oKey gKey w v).2 = []) := by
  refine ⟨?_, ?_, ?_⟩
  · intro h1
    refine ⟨?_, ?_, ?_⟩
    · intro e he
      unfold generateOrderSummary generateOrderSummaryT
      rw [if_pos h1, he]
    · intro s hok hs
      have hs0 : s = "" := ((callOpenAI_ok_trim _ _ _ _ hok).symm).trans hs
      subst hs0
      unfold generateOrderSummary generateOrderSummaryT
      rw [if_pos h1, hok]
      rfl
    · intro s hok hs
      have hsne : s ≠ "" := by
        rw [← callOpenAI_ok_trim _ _ _ _ hok]; exact hs
      unfold generateOrderSummary generateOrderSummaryT
      rw [if_pos h1, hok]
      simp [hsne]
  · intro h1 h2
    refine ⟨?_, ?_, ?_⟩
    · intro e he
      unfold generateOrderSummary generateOrderSummaryT
      rw [if_neg (not_not_intro h1), if_pos h2, he]
    · intro s hok hs
      have hs0 : s = "" := ((callGemini_ok_trim _ _ _ _ hok).symm).trans hs
      subst hs0
      unfold generateOrderSummary generateOrderSummaryT
      rw [if_neg (not_not_intro h1), if_pos h2, hok]
      rfl
    · intro s hok hs
      have hsne : s ≠ "" := by
        rw [← callGemini_ok_trim _ _ _ _ hok]; exact hs
      unfold generateOrderSummary generateOrderSummaryT
      rw [if_neg (not_not_intro h1), if_pos h2, hok]
      simp [hsne]
  · intro h1 h2
    constructor
    · unfold generateOrderSummary generateOrderSummaryT
      rw [if_neg (not_not_intro h1), if_neg (not_not_intro h2)]
    · rw [generateOrderSummaryT_trace, if_neg (not_not_intro h1),
        if_neg (not_not_intro h2)]

/-- C3 witness: a non-blank OpenAI reply is returned verbatim as "ai". -/
theorem attemptedCall_outcome_witness :
    generateOrderSummary "order" "okey" ""
      (.response 200 "200 OK" "" (.ok ["  hi  "])) (.transportError "x")
      = ("hi", "ai") :=
  ((attemptedCall_outcome "order" "okey" ""
      (.response 200 "200 OK" "" (.ok ["  hi  "])) (.transportError "x")).1
    (by decide)).2.2 "hi" (by decide) (by decide)

/-- C8: the encoded response always carries the `source` field, because
`generateOrderSummary` always returns "ai" or "fallback" (never the empty
string that `omitempty` would drop). -/
theorem source_always_emitted (d oKey gKey : String)
    (w : OpenAIWorld) (v : GeminiWorld) :
    (("source", (generateOrderSummary d oKey gKey w v).2) ∈
      encodeOrderSummaryResponseFields
        ⟨(generateOrderSummary d oKey gKey w v).1,
          (generateOrderSummary d oKey gKey w v).2⟩) ∧
    ((generateOrderSummary d oKey gKey w v).2 = "ai" ∨
      (generateOrderSummary d oKey gKey w v).2 = "fallback") := by
  rcases generateOrderSummary_cases d oKey gKey w v with h | ⟨s, h, _, _⟩
  · rw [h]
    exact ⟨by simp [encodeOrderSummaryResponseFields], Or.inr rfl⟩
  · rw [h]
    exact ⟨by simp [encodeOrderSummaryResponseFields], Or.inl rfl⟩

/-- C9: the fallback pair is one fixed constant not derived from the
failure: any two executions on the same order description whose source is
not "ai" return identical `(summary, source)` pairs, so the caller cannot
tell the failure causes apart. -/
theorem fallback_indistinguishable (d k1 g1 k2 g2 : String)
    (w1 : OpenAIWorld) (v1 : GeminiWorld) (w2 : OpenAIWorld) (v2 : GeminiWorld)
    (h1 : (generateOrderSummary d k1 g1 w1 v1).2 = "fallback")
    (h2 : (generateOrderSummary d k2 g2 w2 v2).2 = "fallback") :
    generateOrderSummary d k1 g1 w1 v1 = generateOrderSummary d k2 g2 w2 v2 := by
  have e1 : generateOrderSummary d k1 g1 w1 v1 = (fallbackSummaryText, "fallback") := by
    rcases generateOrderSummary_cases d k1 g1 w1 v1 with h | ⟨s, h, _, _⟩
    · exact h
    · rw [h] at h1
      have hne : ("ai" : String) ≠ "fallback" := by decide
      exact absurd h1 hne
  have e2 : generateOrderSummary d k2 g2 w2 v2 = (fallbackSummaryText, "fallback") := by
    rcases generateOrderSummary_cases d k2 g2 w2 v2 with h | ⟨s, h, _, _⟩
    · exact h
    · rw [h] at h2
      have hne : ("ai" : String) ≠ "fallback" := by decide
      exact absurd h2 hne
  rw [e1, e2]

/-- C9 witness: "no key configured" and "network down with a key" return
the same pair. -/
theorem fallback_indistinguishable_witness :
    generateOrderSummary "order" "" "" (.transportError "a") (.transportError "b")
      = generateOrderSummary "order" "okey" ""
          (.transportError "network down") (.transportError "c") :=
  fallback_indistinguishable "order" "" "" "okey" ""
    (.transportError "a") (.transportError "b")
    (.transportError "network down") (.transportError "c")
    (by decide) (by decide)

/-- C10: whenever `generateOrderSummary` returns source "ai", the summary
is non-empty and carries no leading or trailing whitespace (it is a fixed
point of `trimSpace`). -/
theorem ai_summary_nonempty_trimmed (d oKey gKey : String)
    (w : OpenAIWorld) (v : GeminiWorld)
    (h : (generateOrderSummary d oKey gKey w v).2 = "ai") :
    (generateOrderSummary d oKey gKey w v).1 ≠ "" ∧
    trimSpace (generateOrderSummary d oKey gKey w v).1 =
      (generateOrderSummary d oKey gKey w v).1 := by
  rcases generateOrderSummary_cases d oKey gKey w v with he | ⟨s, he, hs, ht⟩
  · rw [he] at h; exact absurd h (by decide)
  · rw [he]; exact ⟨hs, ht⟩

/-- C10 witness: a concrete "ai" outcome is non-empty and trimmed. -/
theorem ai_summary_nonempty_trimmed_witness :
    (generateOrderSummary "order" "okey" ""
      (.response 200 "200 OK" "" (.ok ["hi"])) (.transportError "x")).1 ≠ "" ∧
    trimSpace (generateOrderSummary "order" "okey" ""
      (.response 200 "200 OK" "" (.ok ["hi"])) (.transportError "x")).1 =
      (generateOrderSummary "order" "okey" ""
        (.response 200 "200 OK" "" (.ok ["hi"])) (.transportError "x")).1 :=
  ai_summary_nonempty_trimmed "order" "okey" ""
    (.response 200 "200 OK" "" (.ok ["hi"])) (.transportError "x") (by decide)

end DeliveryApp
